import Mathlib

/-!
Shallow embedding of the `todo_backend` service: the Todo entity model
(`src/src/models/Todo.ts`) and the five request handlers of the Express
router (`src/unnamed/part_000`, routes file).  The store (MongoDB via
mongoose) is modelled as a list of records; each handler is a pure
function from the store and the request data to a response envelope, the
list of store calls it performed, and the resulting store.
-/

namespace TodoBackend

/-- JavaScript whitespace characters relevant to `String.prototype.trim()`
(ASCII subset; the handlers only ever receive JSON string payloads). -/
def isJsSpace (c : Char) : Bool :=
  c == ' ' || c == '\t' || c == '\n' || c == '\r' || c == '\x0b' || c == '\x0c'

/-- Drop leading and trailing whitespace from a character list. -/
def trimChars (l : List Char) : List Char :=
  ((l.dropWhile isJsSpace).reverse.dropWhile isJsSpace).reverse

/-- Model of JavaScript `String.prototype.trim()`. -/
def jsTrim (s : String) : String :=
  String.mk (trimChars s.data)

/-- Hexadecimal digit test, as used by the ObjectId format check. -/
def isHexChar (c : Char) : Bool :=
  ('0' ≤ c && c ≤ '9') || ('a' ≤ c && c ≤ 'f') || ('A' ≤ c && c ≤ 'F')

/-- Model of `mongoose.Types.ObjectId.isValid`: a 24-character hex string,
or any 12-character string (a 12-byte buffer representation). -/
def isValidObjectId (s : String) : Bool :=
  (s.data.length == 24 && s.data.all isHexChar) || s.data.length == 12

/-- The persisted Todo document (`ITodo` in `src/src/models/Todo.ts`):
`title`, optional `description`, `completed`, plus the store-assigned
`_id` and the `timestamps: true` fields.  Timestamps are modelled as
naturals (milliseconds since epoch). -/
structure TodoRecord where
  id : String
  title : String
  description : Option String
  completed : Bool
  createdAt : Nat
  updatedAt : Nat
deriving Repr, DecidableEq

/-- The store is the collection of persisted records. -/
abbrev Store := List TodoRecord

/-- Payload of a response envelope: absent, a single record, or a list. -/
inductive RespData where
  | omitted : RespData
  | one : TodoRecord → RespData
  | many : List TodoRecord → RespData
deriving Repr, DecidableEq

/-- The uniform JSON response envelope together with the HTTP status. -/
structure Response where
  status : Nat
  success : Bool
  message : Option String
  data : RespData
  count : Option Nat
deriving Repr, DecidableEq

/-- An error envelope: `success: false` with a message, no data. -/
def errResponse (status : Nat) (msg : String) : Response :=
  { status := status, success := false, message := some msg,
    data := .omitted, count := none }

/-- The store operations a handler may invoke (`Todo.find`,
`Todo.findById`, `newTodo.save`, `Todo.findByIdAndUpdate`,
`Todo.findByIdAndDelete`). -/
inductive StoreCall where
  | findAll : StoreCall
  | findById : String → StoreCall
  | save : StoreCall
  | findByIdAndUpdate : String → StoreCall
  | findByIdAndDelete : String → StoreCall
deriving Repr, DecidableEq

/-- Result of running one handler: the response, the trace of store calls
made, and the store after the request. -/
structure HandlerResult where
  resp : Response
  calls : List StoreCall
  store : Store
deriving Repr, DecidableEq

/-- Descending `createdAt` order used by `Todo.find().sort(\x7b createdAt: -1 \x7d)`:
`a` comes before `b` when `b.createdAt ≤ a.createdAt`. -/
def byCreatedAtDesc (a b : TodoRecord) : Prop :=
  b.createdAt ≤ a.createdAt

instance : DecidableRel byCreatedAtDesc :=
  fun a b => inferInstanceAs (Decidable (b.createdAt ≤ a.createdAt))

instance : IsTotal TodoRecord byCreatedAtDesc :=
  ⟨fun a b => Nat.le_total b.createdAt a.createdAt⟩

instance : IsTrans TodoRecord byCreatedAtDesc :=
  ⟨fun _ _ _ hab hbc => Nat.le_trans hbc hab⟩

/-- The store's `find().sort(createdAt descending)` read. -/
def sortNewestFirst (store : Store) : List TodoRecord :=
  List.insertionSort byCreatedAtDesc store

/-- GET `/api/todos`: list all todos, newest first, with a count. -/
def listHandler (store : Store) : HandlerResult :=
  let todos := sortNewestFirst store
  { resp := { status := 200, success := true, message := none,
              data := .many todos, count := some todos.length }
    calls := [.findAll]
    store := store }

/-- The store's `findById`: the record whose id matches, if any. -/
def findByIdOp (store : Store) (id : String) : Option TodoRecord :=
  store.find? (fun t => t.id == id)

/-- GET `/api/todos/:id`: fetch one todo after validating the id format. -/
def getHandler (store : Store) (id : String) : HandlerResult :=
  if !isValidObjectId id then
    { resp := errResponse 400 "Invalid todo ID format", calls := [], store := store }
  else
    match findByIdOp store id with
    | none =>
        { resp := errResponse 404 "Todo not found", calls := [.findById id], store := store }
    | some t =>
        { resp := { status := 200, success := true, message := none,
                    data := .one t, count := none },
          calls := [.findById id], store := store }

/-- The JSON body of a create request.  The handler destructures only
`title` and `description`; a `completed` or `_id` key a caller may have
sent is carried here so that we can state that it is ignored. -/
structure CreateBody where
  title : Option String
  description : Option String
  completed : Option Bool
  bodyId : Option String
deriving Repr, DecidableEq

/-- The create handler's guard `!title || title.trim() === ''`:
for a string-typed field, `!title` is true exactly when the key is
absent or the value is the empty string. -/
def titleMissing : Option String → Bool
  | none => true
  | some s => s == "" || jsTrim s == ""

/-- Model of `description?.trim() || undefined`: absent stays absent, a value that
trims to the empty string becomes `undefined`, otherwise the trimmed
value. -/
def normDescription : Option String → Option String
  | none => none
  | some s => if jsTrim s == "" then none else some (jsTrim s)

/-- Schema validation of `title` at save time: `required` (rejects the
empty string) and `maxlength: 100`. -/
def schemaTitleError (title : String) : Bool :=
  title == "" || title.data.length > 100

/-- Schema validation of `description` at save time: `maxlength: 500`. -/
def schemaDescriptionError : Option String → Bool
  | none => false
  | some d => d.data.length > 500

/-- Model of `new Todo(fields)` followed by `newTodo.save()`: the schema applies its `trim`
setters, runs the validators, and on success appends a fresh document
with `completed` defaulted to `false` and both timestamps set to the
current time.  A validation failure throws (modelled as `.error`). -/
def saveTodo (store : Store) (title : String) (description : Option String)
    (freshId : String) (now : Nat) : Except String (TodoRecord × Store) :=
  let t := jsTrim title
  let d := description.map jsTrim
  if schemaTitleError t then
    .error "ValidationError: title"
  else if schemaDescriptionError d then
    .error "ValidationError: description"
  else
    let doc : TodoRecord :=
      { id := freshId, title := t, description := d, completed := false,
        createdAt := now, updatedAt := now }
    .ok (doc, store ++ [doc])

/-- POST `/api/todos`: validate the title, normalize, save.  A thrown
save error is caught and reported as a 500. -/
def createHandler (store : Store) (body : CreateBody) (freshId : String) (now : Nat) :
    HandlerResult :=
  if titleMissing body.title then
    { resp := errResponse 400 "Title is required", calls := [], store := store }
  else
    match saveTodo store (jsTrim (body.title.getD "")) (normDescription body.description)
        freshId now with
    | .error _ =>
        { resp := errResponse 500 "Failed to create todo", calls := [.save], store := store }
    | .ok (doc, store') =>
        { resp := { status := 201, success := true,
                    message := some "Todo created successfully",
                    data := .one doc, count := none },
          calls := [.save], store := store' }

/-- The JSON body of an update request. -/
structure UpdateBody where
  title : Option String
  description : Option String
  completed : Option Bool
deriving Repr, DecidableEq

/-- The `updateData` object the update handler builds.  A field is `none`
when its key is absent.  For `description` the assigned JavaScript value
may itself be `undefined` (`description?.trim() || undefined`), so a
present key carries an `Option String`: `some none` is a present key
holding `undefined` — it still counts for `Object.keys` but carries no
value. -/
structure UpdateData where
  title : Option String
  description : Option (Option String)
  completed : Option Bool
deriving Repr, DecidableEq

/-- Lines `if (title !== undefined) updateData.title = title.trim();`
etc. of the update handler. -/
def buildUpdateData (b : UpdateBody) : UpdateData :=
  { title := b.title.map jsTrim
    description := b.description.map
      (fun s => if jsTrim s == "" then none else some (jsTrim s))
    completed := b.completed }

/-- Model of `Object.keys(updateData).length`: a key assigned `undefined` still
counts. -/
def keysCount (u : UpdateData) : Nat :=
  (if u.title.isSome then 1 else 0) +
  (if u.description.isSome then 1 else 0) +
  (if u.completed.isSome then 1 else 0)

/-- Mongoose (v6+) strips keys whose value is `undefined` from an update
document before applying it: the `description` path is applied only when
the key is present with a real string value. -/
def appliedDescription : Option (Option String) → Option String
  | some (some s) => some s
  | some none => none
  | none => none

/-- With `runValidators: true` on `findByIdAndUpdate`, update validators run
on the paths present in the (stripped) update document, with the schema
`trim` setter applied first. -/
def updateValidationError (u : UpdateData) : Bool :=
  (match u.title with
   | some t => schemaTitleError (jsTrim t)
   | none => false) ||
  (match appliedDescription u.description with
   | some d => schemaDescriptionError (some (jsTrim d))
   | none => false)

/-- Apply the stripped update document to a document, with the schema
setters, and refresh `updatedAt` (`timestamps: true`). -/
def applyUpdate (t : TodoRecord) (u : UpdateData) (now : Nat) : TodoRecord :=
  { t with
    title := match u.title with
             | some s => jsTrim s
             | none => t.title
    description := match appliedDescription u.description with
                   | some s => some (jsTrim s)
                   | none => t.description
    completed := u.completed.getD t.completed
    updatedAt := now }

/-- Model of `Todo.findByIdAndUpdate(id, updateData, \x7b new: true, runValidators:
true \x7d)`: validators run on the update document first (a failure
throws, modelled as `.error`); then the matching document, if any, is
updated in place and returned in its new state. -/
def findByIdAndUpdateOp (store : Store) (id : String) (u : UpdateData) (now : Nat) :
    Except String (Option TodoRecord × Store) :=
  if updateValidationError u then
    .error "ValidationError"
  else
    match findByIdOp store id with
    | none => .ok (none, store)
    | some t =>
        let t' := applyUpdate t u now
        .ok (some t', store.map (fun r => if r.id == t.id then t' else r))

/-- PUT `/api/todos/:id`: validate the id, build `updateData`, require at
least one provided field, then update.  A thrown store error is caught
and reported as a 500. -/
def updateHandler (store : Store) (id : String) (body : UpdateBody) (now : Nat) :
    HandlerResult :=
  if !isValidObjectId id then
    { resp := errResponse 400 "Invalid todo ID format", calls := [], store := store }
  else
    let u := buildUpdateData body
    if keysCount u == 0 then
      { resp := errResponse 400
          "At least one field (title, description, or completed) must be provided for update",
        calls := [], store := store }
    else
      match findByIdAndUpdateOp store id u now with
      | .error _ =>
          { resp := errResponse 500 "Failed to update todo",
            calls := [.findByIdAndUpdate id], store := store }
      | .ok (none, store') =>
          { resp := errResponse 404 "Todo not found",
            calls := [.findByIdAndUpdate id], store := store' }
      | .ok (some t', store') =>
          { resp := { status := 200, success := true,
                      message := some "Todo updated successfully",
                      data := .one t', count := none },
            calls := [.findByIdAndUpdate id], store := store' }

/-- DELETE `/api/todos/:id`: validate the id, then
`Todo.findByIdAndDelete(id)` — remove the matching document and return
it as the confirmation payload. -/
def deleteHandler (store : Store) (id : String) : HandlerResult :=
  if !isValidObjectId id then
    { resp := errResponse 400 "Invalid todo ID format", calls := [], store := store }
  else
    match findByIdOp store id with
    | none =>
        { resp := errResponse 404 "Todo not found",
          calls := [.findByIdAndDelete id], store := store }
    | some t =>
        { resp := { status := 200, success := true,
                    message := some "Todo deleted successfully",
                    data := .one t, count := none },
          calls := [.findByIdAndDelete id],
          store := store.eraseP (fun r => r.id == id) }

/-- A title of 101 characters: non-empty after trimming, but over the
schema's `maxlength: 100` limit. -/
def longTitle : String := String.mk (List.replicate 101 'a')

/-- A concrete well-formed ObjectId used in concrete evaluations. -/
def sampleId : String := "0123456789abcdef01234567"

/-- A concrete stored record with a set description. -/
def sampleTodo : TodoRecord :=
  { id := sampleId, title := "Buy milk", description := some "keep me",
    completed := false, createdAt := 0, updatedAt := 0 }

/-! Helper lemmas. -/

lemma trimChars_eq_rdropWhile (l : List Char) :
    trimChars l = List.rdropWhile isJsSpace (List.dropWhile isJsSpace l) := rfl

lemma dropWhile_rdropWhile_dropWhile (p : Char → Bool) (l : List Char) :
    List.dropWhile p (List.rdropWhile p (List.dropWhile p l)) =
      List.rdropWhile p (List.dropWhile p l) := by
  cases hm : List.rdropWhile p (List.dropWhile p l) with
  | nil => rfl
  | cons a m =>
      have hpre : a :: m <+: List.dropWhile p l := hm ▸ List.rdropWhile_prefix p _
      obtain ⟨t, ht⟩ := hpre
      have hw : List.dropWhile p l ≠ [] := by
        rw [← ht]; simp
      have ha : p a = false := by
        have hh := List.head_dropWhile_not p l hw
        have h2 : (List.dropWhile p l).head? = some a := by
          rw [← ht]
          simp
        rw [List.head?_eq_head hw] at h2
        rwa [Option.some_inj.mp h2] at hh
      simp [List.dropWhile_cons_of_neg, ha]

lemma trimChars_idem (l : List Char) : trimChars (trimChars l) = trimChars l := by
  rw [trimChars_eq_rdropWhile, trimChars_eq_rdropWhile,
    dropWhile_rdropWhile_dropWhile]
  exact List.rdropWhile_idempotent _ _

lemma jsTrim_idem (s : String) : jsTrim (jsTrim s) = jsTrim s := by
  simp only [jsTrim]
  rw [trimChars_idem]

lemma jsTrim_empty : jsTrim "" = "" := by decide

lemma titleMissing_of_blank {t : Option String}
    (h : t = none ∨ ∃ s, t = some s ∧ jsTrim s = "") : titleMissing t = true := by
  rcases h with h | ⟨s, hs, hts⟩
  · rw [h]; rfl
  · rw [hs]
    simp [titleMissing, hts]

lemma titleMissing_eq_false {s : String} (hne : jsTrim s ≠ "") :
    titleMissing (some s) = false := by
  have hs : s ≠ "" := by
    intro h
    exact hne (h ▸ jsTrim_empty)
  simp [titleMissing, hne, hs]

lemma map_jsTrim_normDescription (d : Option String) :
    (normDescription d).map jsTrim = normDescription d := by
  cases d with
  | none => rfl
  | some s =>
      simp only [normDescription]
      split
      · rfl
      · simp [jsTrim_idem]

lemma schemaTitleError_of_valid {s : String} (hne : jsTrim s ≠ "")
    (hlen : (jsTrim s).data.length ≤ 100) :
    schemaTitleError (jsTrim (jsTrim s)) = false := by
  rw [jsTrim_idem]
  simp only [schemaTitleError, Bool.or_eq_false_iff, beq_eq_false_iff_ne, ne_eq,
    decide_eq_false_iff_not, Nat.not_lt]
  exact ⟨hne, hlen⟩

lemma saveTodo_valid_eq (store : Store) (s : String) (d : Option String)
    (freshId : String) (now : Nat) (hne : jsTrim s ≠ "")
    (hlen : (jsTrim s).data.length ≤ 100)
    (hd : schemaDescriptionError (normDescription d) = false) :
    saveTodo store (jsTrim s) (normDescription d) freshId now =
      .ok ({ id := freshId, title := jsTrim s, description := normDescription d,
             completed := false, createdAt := now, updatedAt := now },
           store ++ [{ id := freshId, title := jsTrim s,
                       description := normDescription d, completed := false,
                       createdAt := now, updatedAt := now }]) := by
  have hte : schemaTitleError (jsTrim s) = false := by
    have h := schemaTitleError_of_valid hne hlen
    rwa [jsTrim_idem] at h
  simp only [saveTodo, map_jsTrim_normDescription, hte, hd, Bool.false_eq_true,
    if_false, jsTrim_idem]

lemma saveTodo_title_error (store : Store) (title : String) (d : Option String)
    (freshId : String) (now : Nat) (h : schemaTitleError (jsTrim title) = true) :
    saveTodo store title d freshId now = .error "ValidationError: title" := by
  simp [saveTodo, h]

lemma createHandler_valid_eq (store : Store) (body : CreateBody) (freshId : String)
    (now : Nat) (s : String) (ht : body.title = some s) (hne : jsTrim s ≠ "")
    (hlen : (jsTrim s).data.length ≤ 100)
    (hdesc : schemaDescriptionError (normDescription body.description) = false) :
    createHandler store body freshId now =
      { resp := { status := 201, success := true,
                  message := some "Todo created successfully",
                  data := .one { id := freshId, title := jsTrim s,
                                 description := normDescription body.description,
                                 completed := false, createdAt := now, updatedAt := now },
                  count := none },
        calls := [.save],
        store := store ++ [{ id := freshId, title := jsTrim s,
                             description := normDescription body.description,
                             completed := false, createdAt := now, updatedAt := now }] } := by
  have hmiss : titleMissing (some s) = false := titleMissing_eq_false hne
  simp only [createHandler, ht, Option.getD_some, hmiss, Bool.false_eq_true, if_false,
    saveTodo_valid_eq store s body.description freshId now hne hlen hdesc]

lemma updateHandler_found_eq (store : Store) (id : String) (body : UpdateBody)
    (now : Nat) (t : TodoRecord)
    (hid : isValidObjectId id = true)
    (hkeys : (keysCount (buildUpdateData body) == 0) = false)
    (hval : updateValidationError (buildUpdateData body) = false)
    (hfind : findByIdOp store id = some t) :
    updateHandler store id body now =
      { resp := { status := 200, success := true,
                  message := some "Todo updated successfully",
                  data := .one (applyUpdate t (buildUpdateData body) now),
                  count := none },
        calls := [.findByIdAndUpdate id],
        store := store.map (fun r =>
          if r.id == t.id then applyUpdate t (buildUpdateData body) now else r) } := by
  simp only [updateHandler, hid, Bool.not_true, Bool.false_eq_true, if_false, hkeys,
    findByIdAndUpdateOp, hval, hfind]

/-! Claim theorems. -/

/-- Claim C1: for every Get, Update, or Delete request whose path
identifier fails the syntactic identifier-format check, the handler
returns a 400 error envelope with message "Invalid todo ID format",
performs no store operation at all, and leaves the store unchanged. -/
theorem invalid_id_short_circuits (store : Store) (id : String) (body : UpdateBody)
    (now : Nat) (h : isValidObjectId id = false) :
    getHandler store id =
      { resp := errResponse 400 "Invalid todo ID format", calls := [], store := store } ∧
    updateHandler store id body now =
      { resp := errResponse 400 "Invalid todo ID format", calls := [], store := store } ∧
    deleteHandler store id =
      { resp := errResponse 400 "Invalid todo ID format", calls := [], store := store } := by
  refine ⟨?_, ?_, ?_⟩ <;> simp [getHandler, updateHandler, deleteHandler, h]

/-- Witness for C1 at the malformed identifier "not-an-id". -/
theorem invalid_id_short_circuits_witness :
    getHandler [] "not-an-id" =
      { resp := errResponse 400 "Invalid todo ID format", calls := [], store := [] } ∧
    updateHandler [] "not-an-id"
        { title := none, description := none, completed := none } 0 =
      { resp := errResponse 400 "Invalid todo ID format", calls := [], store := [] } ∧
    deleteHandler [] "not-an-id" =
      { resp := errResponse 400 "Invalid todo ID format", calls := [], store := [] } :=
  invalid_id_short_circuits [] "not-an-id"
    { title := none, description := none, completed := none } 0 (by decide)

/-- Claim C4: a create request whose title is absent, or whose title
trims to the empty string, is rejected with a 400 "Title is required"
envelope; no store call is made and the store is unchanged. -/
theorem create_missing_or_blank_title_rejected (store : Store) (body : CreateBody)
    (freshId : String) (now : Nat)
    (h : body.title = none ∨ ∃ s, body.title = some s ∧ jsTrim s = "") :
    createHandler store body freshId now =
      { resp := errResponse 400 "Title is required", calls := [], store := store } := by
  simp [createHandler, titleMissing_of_blank h]

/-- Witness for C4 at a whitespace-only title. -/
theorem create_missing_or_blank_title_rejected_witness :
    createHandler []
        { title := some "   ", description := none, completed := none, bodyId := none }
        "507f1f77bcf86cd799439011" 3 =
      { resp := errResponse 400 "Title is required", calls := [], store := [] } :=
  create_missing_or_blank_title_rejected []
    { title := some "   ", description := none, completed := none, bodyId := none }
    "507f1f77bcf86cd799439011" 3 (Or.inr ⟨"   ", rfl, by decide⟩)

/-- Claim C5: an update request with a well-formed identifier and an
empty body is rejected with the 400 "at least one field" envelope; no
store call is made and the store is unchanged. -/
theorem update_empty_body_rejected (store : Store) (id : String) (now : Nat)
    (hid : isValidObjectId id = true) :
    updateHandler store id { title := none, description := none, completed := none } now =
      { resp := errResponse 400
          "At least one field (title, description, or completed) must be provided for update",
        calls := [], store := store } := by
  simp [updateHandler, hid, buildUpdateData, keysCount]

/-- Witness for C5 at a concrete well-formed identifier. -/
theorem update_empty_body_rejected_witness :
    updateHandler [] "0123456789abcdef01234567"
        { title := none, description := none, completed := none } 9 =
      { resp := errResponse 400
          "At least one field (title, description, or completed) must be provided for update",
        calls := [], store := [] } :=
  update_empty_body_rejected [] "0123456789abcdef01234567" 9 (by decide)

/-- Counterexample to C2: a create whose trimmed title is non-empty but
101 characters long fails the schema length validator at save time, and
the handler's catch block reports it as a 500 "Failed to create todo" —
not a 400. -/
theorem overlong_title_create_returns_500 :
    (createHandler []
        { title := some longTitle, description := none, completed := none,
          bodyId := none }
        "507f1f77bcf86cd799439011" 0).resp =
      errResponse 500 "Failed to create todo" := by decide

/-- Claim C2 (amended): validation failures the handler itself detects —
an absent or blank title — are reported as 400; but a create whose
trimmed title exceeds the 100-character schema limit passes the handler
check, fails inside the store save, and surfaces as a 500 store-failure
envelope (with the store left unchanged). -/
theorem create_validation_status_mapping (store : Store) (body : CreateBody)
    (freshId : String) (now : Nat) :
    ((body.title = none ∨ ∃ s, body.title = some s ∧ jsTrim s = "") →
      createHandler store body freshId now =
        { resp := errResponse 400 "Title is required", calls := [], store := store }) ∧
    (∀ s, body.title = some s → jsTrim s ≠ "" → 100 < (jsTrim s).data.length →
      createHandler store body freshId now =
        { resp := errResponse 500 "Failed to create todo", calls := [.save],
          store := store }) := by
  constructor
  · intro h
    simp [createHandler, titleMissing_of_blank h]
  · intro s ht hne hlen
    have hmiss : titleMissing (some s) = false := titleMissing_eq_false hne
    have hterr : schemaTitleError (jsTrim (jsTrim s)) = true := by
      rw [jsTrim_idem]
      simp only [schemaTitleError, Bool.or_eq_true, decide_eq_true_eq]
      exact Or.inr hlen
    simp only [createHandler, ht, Option.getD_some, hmiss, Bool.false_eq_true, if_false,
      saveTodo_title_error store (jsTrim s) (normDescription body.description)
        freshId now hterr]

/-- Witness for C2 applying the amended theorem at the 101-character title. -/
theorem create_validation_status_mapping_witness :
    createHandler []
        { title := some longTitle, description := none, completed := none,
          bodyId := none }
        "507f1f77bcf86cd799439011" 0 =
      { resp := errResponse 500 "Failed to create todo", calls := [.save],
        store := [] } :=
  (create_validation_status_mapping []
      { title := some longTitle, description := none, completed := none,
        bodyId := none }
      "507f1f77bcf86cd799439011" 0).2 longTitle rfl (by decide) (by decide)

/-- Counterexample to C3: the 101-character title is present and
non-empty after trimming, yet the response status is 500, not 201. -/
theorem overlong_title_create_not_201 :
    jsTrim longTitle ≠ "" ∧
    (createHandler []
        { title := some longTitle, description := none, completed := none,
          bodyId := none }
        "507f1f77bcf86cd799439011" 0).resp.status = 500 := by decide

/-- Claim C3 (amended): for every create request whose title trims to a
non-empty string of at most 100 characters, and whose description (if
present) trims to at most 500 characters, the response is 201 and the
returned record has the trimmed title, `completed = false`, equal
creation and update timestamps, and an unset description whenever the
input description was absent or blank after trimming. -/
theorem create_valid_contract (store : Store) (body : CreateBody) (freshId : String)
    (now : Nat) (s : String) (ht : body.title = some s) (hne : jsTrim s ≠ "")
    (hlen : (jsTrim s).data.length ≤ 100)
    (hdesc : ∀ d, body.description = some d → (jsTrim d).data.length ≤ 500) :
    ∃ doc : TodoRecord,
      createHandler store body freshId now =
        { resp := { status := 201, success := true,
                    message := some "Todo created successfully",
                    data := .one doc, count := none },
          calls := [.save], store := store ++ [doc] } ∧
      doc.title = jsTrim s ∧ doc.completed = false ∧
      doc.createdAt = now ∧ doc.updatedAt = now ∧
      doc.description = normDescription body.description ∧
      ((body.description = none ∨ ∃ d, body.description = some d ∧ jsTrim d = "") →
        doc.description = none) := by
  have hde : schemaDescriptionError (normDescription body.description) = false := by
    cases hbd : body.description with
    | none => rfl
    | some d =>
        simp only [normDescription]
        split
        · rfl
        · simp only [schemaDescriptionError, decide_eq_false_iff_not, Nat.not_lt]
          exact hdesc d hbd
  refine ⟨_, createHandler_valid_eq store body freshId now s ht hne hlen hde,
    rfl, rfl, rfl, rfl, rfl, ?_⟩
  intro h
  rcases h with h | ⟨d, hd, hblank⟩
  · simp [normDescription, h]
  · simp [normDescription, hd, hblank]

/-- Witness for C3: creating with title " Buy milk " and a blank
description yields the trimmed record with no description. -/
theorem create_valid_contract_witness :
    ∃ doc : TodoRecord,
      createHandler []
          { title := some " Buy milk ", description := some "   ",
            completed := none, bodyId := none }
          "507f1f77bcf86cd799439011" 7 =
        { resp := { status := 201, success := true,
                    message := some "Todo created successfully",
                    data := .one doc, count := none },
          calls := [.save], store := [] ++ [doc] } ∧
      doc.title = jsTrim " Buy milk " ∧ doc.completed = false ∧
      doc.createdAt = 7 ∧ doc.updatedAt = 7 ∧
      doc.description = normDescription (some "   ") ∧
      (((some "   " : Option String) = none ∨
          ∃ d, (some "   " : Option String) = some d ∧ jsTrim d = "") →
        doc.description = none) :=
  create_valid_contract []
    { title := some " Buy milk ", description := some "   ",
      completed := none, bodyId := none }
    "507f1f77bcf86cd799439011" 7 " Buy milk " rfl (by decide) (by decide)
    (by intro d hd; cases hd; decide)

/-- Claim C6: the "at least one field" check counts a present-but-blank
title as a caller-supplied field: for any update body whose title key is
present (with any value), `updateData` is non-empty and the handler never
answers with the "at least one field" rejection. -/
theorem blank_title_counts_as_field (store : Store) (id : String) (s : String)
    (d : Option String) (c : Option Bool) (now : Nat)
    (hid : isValidObjectId id = true) :
    keysCount (buildUpdateData { title := some s, description := d, completed := c }) ≠ 0 ∧
    (updateHandler store id
        { title := some s, description := d, completed := c } now).resp.message ≠
      some "At least one field (title, description, or completed) must be provided for update" := by
  have h1 : keysCount (buildUpdateData
      { title := some s, description := d, completed := c }) ≠ 0 := by
    simp [keysCount, buildUpdateData]
  have hk : (keysCount (buildUpdateData
      { title := some s, description := d, completed := c }) == 0) = false := by
    simpa using h1
  refine ⟨h1, ?_⟩
  simp only [updateHandler, hid, Bool.not_true, Bool.false_eq_true, if_false, hk]
  rcases hop : findByIdAndUpdateOp store id
      (buildUpdateData { title := some s, description := d, completed := c }) now with
    e | ⟨o, st⟩
  · simp [errResponse]
  · cases o <;> simp [errResponse]

/-- Witness for C6: an update whose only field is the blank title "". -/
theorem blank_title_counts_as_field_witness :
    keysCount (buildUpdateData
      { title := some "", description := none, completed := none }) ≠ 0 ∧
    (updateHandler [] "0123456789abcdef01234567"
        { title := some "", description := none, completed := none } 4).resp.message ≠
      some "At least one field (title, description, or completed) must be provided for update" :=
  blank_title_counts_as_field [] "0123456789abcdef01234567" "" none none 4 (by decide)

/-- Counterexample to C7: updating `sampleTodo` (description "keep me")
with a whitespace-only description succeeds but leaves the description
set to "keep me" — it is not unset. -/
theorem blank_description_update_keeps_value :
    (updateHandler [sampleTodo] sampleId
        { title := none, description := some "   ", completed := none } 5).resp.data =
      RespData.one { sampleTodo with updatedAt := 5 } ∧
    ({ sampleTodo with updatedAt := 5 } : TodoRecord).description = some "keep me" := by
  decide

/-- Claim C7 (amended): on update, a present description that trims to
the empty string becomes an `undefined` value, which the store strips
from the update document: the update succeeds and the record's
description (and title) are left exactly as they were — in particular the
description is never stored as an empty string. -/
theorem update_blank_description_unchanged (store : Store) (id : String) (s : String)
    (c : Option Bool) (now : Nat) (t : TodoRecord)
    (hid : isValidObjectId id = true)
    (hfind : findByIdOp store id = some t)
    (hblank : jsTrim s = "") :
    ∃ t' store',
      updateHandler store id
          { title := none, description := some s, completed := c } now =
        { resp := { status := 200, success := true,
                    message := some "Todo updated successfully",
                    data := .one t', count := none },
          calls := [.findByIdAndUpdate id], store := store' } ∧
      t'.description = t.description ∧ t'.title = t.title := by
  have hu : buildUpdateData { title := none, description := some s, completed := c } =
      { title := none, description := some none, completed := c } := by
    simp [buildUpdateData, hblank]
  have hk : (keysCount (buildUpdateData
      { title := none, description := some s, completed := c }) == 0) = false := by
    rw [hu]
    cases c <;> simp [keysCount]
  have hval : updateValidationError (buildUpdateData
      { title := none, description := some s, completed := c }) = false := by
    rw [hu]; rfl
  refine ⟨_, _, updateHandler_found_eq store id _ now t hid hk hval hfind, ?_, ?_⟩
  · rw [hu]; rfl
  · rw [hu]; rfl

/-- Witness for C7: blank-description update of `sampleTodo` keeps
description "keep me". -/
theorem update_blank_description_unchanged_witness :
    ∃ t' store',
      updateHandler [sampleTodo] sampleId
          { title := none, description := some "   ", completed := none } 5 =
        { resp := { status := 200, success := true,
                    message := some "Todo updated successfully",
                    data := .one t', count := none },
          calls := [.findByIdAndUpdate sampleId], store := store' } ∧
      t'.description = sampleTodo.description ∧ t'.title = sampleTodo.title :=
  update_blank_description_unchanged [sampleTodo] sampleId "   " none 5 sampleTodo
    (by decide) (by decide) (by decide)

/-- Claim C8: a successful update overwrites only the fields present in
the normalized update, never touches `id` or `createdAt`, sets
`updatedAt` to the current time (hence strictly later whenever the clock
has advanced past the record's `updatedAt`), and in particular a
completed-only update leaves title and description unchanged. -/
theorem update_frame (store : Store) (id : String) (body : UpdateBody) (now : Nat)
    (t : TodoRecord)
    (hid : isValidObjectId id = true)
    (hfind : findByIdOp store id = some t)
    (hkeys : keysCount (buildUpdateData body) ≠ 0)
    (hval : updateValidationError (buildUpdateData body) = false) :
    ∃ t' : TodoRecord,
      (updateHandler store id body now).resp =
        { status := 200, success := true,
          message := some "Todo updated successfully",
          data := .one t', count := none } ∧
      t'.id = t.id ∧ t'.createdAt = t.createdAt ∧ t'.updatedAt = now ∧
      (body.title = none → t'.title = t.title) ∧
      ((body.description = none ∨ ∃ s, body.description = some s ∧ jsTrim s = "") →
        t'.description = t.description) ∧
      (body.completed = none → t'.completed = t.completed) ∧
      (∀ b, body.completed = some b → t'.completed = b) ∧
      (t.updatedAt < now → t.updatedAt < t'.updatedAt) := by
  have hk : (keysCount (buildUpdateData body) == 0) = false := by
    simpa using hkeys
  refine ⟨applyUpdate t (buildUpdateData body) now, ?_, rfl, rfl, rfl, ?_, ?_, ?_, ?_, ?_⟩
  · rw [updateHandler_found_eq store id body now t hid hk hval hfind]
  · intro h
    simp [applyUpdate, buildUpdateData, h]
  · intro h
    rcases h with h | ⟨s, hs, hblank⟩
    · simp [applyUpdate, buildUpdateData, appliedDescription, h]
    · simp [applyUpdate, buildUpdateData, appliedDescription, hs, hblank]
  · intro h
    simp [applyUpdate, buildUpdateData, h]
  · intro b h
    simp [applyUpdate, buildUpdateData, h]
  · intro h
    exact h

/-- Witness for C8: a completed-only update of `sampleTodo` at a later
time. -/
theorem update_frame_witness :
    ∃ t' : TodoRecord,
      (updateHandler [sampleTodo] sampleId
          { title := none, description := none, completed := some true } 5).resp =
        { status := 200, success := true,
          message := some "Todo updated successfully",
          data := .one t', count := none } ∧
      t'.id = sampleTodo.id ∧ t'.createdAt = sampleTodo.createdAt ∧ t'.updatedAt = 5 ∧
      (((none : Option String) = none) → t'.title = sampleTodo.title) ∧
      (((none : Option String) = none ∨
          ∃ s, (none : Option String) = some s ∧ jsTrim s = "") →
        t'.description = sampleTodo.description) ∧
      (((some true : Option Bool) = none) → t'.completed = sampleTodo.completed) ∧
      (∀ b, (some true : Option Bool) = some b → t'.completed = b) ∧
      (sampleTodo.updatedAt < 5 → sampleTodo.updatedAt < t'.updatedAt) :=
  update_frame [sampleTodo] sampleId
    { title := none, description := none, completed := some true } 5 sampleTodo
    (by decide) (by decide) (by decide) (by decide)

/-- Claim C9: listing returns 200 with all stored records, ordered by
descending creation time, and the envelope's count equals the length of
the data; the only store call is the sorted findAll read. -/
theorem list_all_sorted_counted (store : Store) :
    (listHandler store).resp.status = 200 ∧
    (listHandler store).resp.success = true ∧
    (listHandler store).calls = [.findAll] ∧
    ∃ l : List TodoRecord,
      (listHandler store).resp.data = .many l ∧
      l.Pairwise byCreatedAtDesc ∧
      l.Perm store ∧
      (listHandler store).resp.count = some l.length := by
  refine ⟨rfl, rfl, rfl, sortNewestFirst store, rfl, ?_, ?_, rfl⟩
  · exact List.sorted_insertionSort byCreatedAtDesc store
  · exact List.perm_insertionSort byCreatedAtDesc store

lemma saveTodo_ok_shape {store : Store} {title : String} {d : Option String}
    {freshId : String} {now : Nat} {doc : TodoRecord} {st : Store}
    (h : saveTodo store title d freshId now = .ok (doc, st)) :
    doc.completed = false ∧ doc.id = freshId ∧ doc.createdAt = now ∧
      doc.updatedAt = now ∧ st = store ++ [doc] := by
  simp only [saveTodo] at h
  split at h
  · exact absurd h (by simp)
  · split at h
    · exact absurd h (by simp)
    · simp only [Except.ok.injEq, Prod.mk.injEq] at h
      obtain ⟨h1, h2⟩ := h
      subst h1
      subst h2
      exact ⟨rfl, rfl, rfl, rfl, rfl⟩

/-- Claim C10: create ignores every body field other than title and
description — the handler's outcome is literally independent of a
`completed` or id value smuggled into the body — and whenever a record
is created, its `completed` is `false` and its id and both timestamps
are store-assigned. -/
theorem create_ignores_extra_fields (store : Store) (t d : Option String)
    (c c' : Option Bool) (i i' : Option String) (freshId : String) (now : Nat) :
    createHandler store { title := t, description := d, completed := c, bodyId := i }
        freshId now =
      createHandler store { title := t, description := d, completed := c', bodyId := i' }
        freshId now ∧
    (∀ doc : TodoRecord,
      (createHandler store { title := t, description := d, completed := c, bodyId := i }
          freshId now).resp.data = .one doc →
      doc.completed = false ∧ doc.id = freshId ∧
      doc.createdAt = now ∧ doc.updatedAt = now) := by
  constructor
  · rfl
  · intro doc hdata
    by_cases hm : titleMissing t = true
    · rw [show (createHandler store
          { title := t, description := d, completed := c, bodyId := i } freshId now) =
          { resp := errResponse 400 "Title is required", calls := [], store := store }
          from by simp [createHandler, hm]] at hdata
      exact absurd hdata (by simp [errResponse])
    · rcases hsv : saveTodo store (jsTrim (t.getD "")) (normDescription d) freshId now with
        e | ⟨doc', st⟩
      · rw [show (createHandler store
            { title := t, description := d, completed := c, bodyId := i } freshId now) =
            { resp := errResponse 500 "Failed to create todo", calls := [.save],
              store := store }
            from by simp [createHandler, hm, hsv]] at hdata
        exact absurd hdata (by simp [errResponse])
      · rw [show (createHandler store
            { title := t, description := d, completed := c, bodyId := i } freshId now) =
            { resp := { status := 201, success := true,
                        message := some "Todo created successfully",
                        data := .one doc', count := none },
              calls := [.save], store := st }
            from by simp [createHandler, hm, hsv]] at hdata
        simp only [RespData.one.injEq] at hdata
        obtain ⟨h1, h2, h3, h4, _⟩ := saveTodo_ok_shape hsv
        subst hdata
        exact ⟨h1, h2, h3, h4⟩

/-- Witness for C10: a create carrying `completed = true` and a body id
behaves exactly like one without them, and the created record is the
store-assigned one with `completed = false`. -/
theorem create_ignores_extra_fields_witness :
    createHandler []
        { title := some "a", description := none, completed := some true,
          bodyId := some "badid" } "507f1f77bcf86cd799439011" 5 =
      createHandler []
        { title := some "a", description := none, completed := none,
          bodyId := none } "507f1f77bcf86cd799439011" 5 ∧
    (({ id := "507f1f77bcf86cd799439011", title := "a", description := none,
        completed := false, createdAt := 5, updatedAt := 5 } : TodoRecord).completed = false ∧
     ({ id := "507f1f77bcf86cd799439011", title := "a", description := none,
        completed := false, createdAt := 5, updatedAt := 5 } : TodoRecord).id =
       "507f1f77bcf86cd799439011" ∧
     ({ id := "507f1f77bcf86cd799439011", title := "a", description := none,
        completed := false, createdAt := 5, updatedAt := 5 } : TodoRecord).createdAt = 5 ∧
     ({ id := "507f1f77bcf86cd799439011", title := "a", description := none,
        completed := false, createdAt := 5, updatedAt := 5 } : TodoRecord).updatedAt = 5) :=
  ⟨(create_ignores_extra_fields [] (some "a") none (some true) none (some "badid") none
      "507f1f77bcf86cd799439011" 5).1,
   (create_ignores_extra_fields [] (some "a") none (some true) none (some "badid") none
      "507f1f77bcf86cd799439011" 5).2
     { id := "507f1f77bcf86cd799439011", title := "a", description := none,
       completed := false, createdAt := 5, updatedAt := 5 } (by decide)⟩

end TodoBackend
